import Mathlib

/-!
Verification of the startup investment-evaluation engine.

Shallow embedding of the scoring and decision pipeline:
  * `src/agents/decision_maker.py` (grade table, risk factors, reasons, warnings),
  * `src/agents/scorer.py` (Berkus and Scorecard methods, weighted final score),
  * `src/rag/evaluation_rag.py` (criteria normalization),
  * `src/agents/growth_agent.py` (growth-rate labeler and scorer).

Numbers are modelled by `ℚ`; Python `round(x, 2)` is modelled by round-half-to-even
at two decimals, and Python `int(x)` by truncation toward zero.  Python dicts whose
lookups matter are modelled as association lists; a dict field read with
`d.get(k, default)` becomes a plain field holding the default when absent, and
`d.get(k)` (which can yield `None`) becomes an `Option` field.  The legacy alias
dispatch `state.get("space", {}) or state.get("tech_analysis", {})` (and the
scorer's reversed preference) always resolves to one dictionary; the embedding
works with that resolved record.
-/

namespace StartupAI

/-- Python `round(x, 2)` at integer granularity: round half to even. -/
def roundHalfEven (x : ℚ) : ℤ :=
  if Int.fract x = 1 / 2 then (if Even ⌊x⌋ then ⌊x⌋ else ⌊x⌋ + 1) else round x

/-- Python `round(x, 2)`: round half to even at two decimal places. -/
def round2 (x : ℚ) : ℚ := (roundHalfEven (x * 100) : ℚ) / 100

/-- Python `int(x)`: truncation toward zero. -/
def intTrunc (q : ℚ) : ℤ := if 0 ≤ q then ⌊q⌋ else ⌈q⌉

/-- Resolved tech dictionary (`space` / `tech_analysis`).
`trlLevel` is `tech.get("trl_level")`; `patents` is `len(tech.get("patents", []))`;
`coreTechnology` is the truthiness of `tech.get("core_technology")`;
`score` is `tech.get("score", 0)`. -/
structure TechD where
  trlLevel : Option ℤ
  patents : ℕ
  coreTechnology : Bool
  score : ℚ
deriving DecidableEq

/-- Resolved market dictionary (`market` / `market_analysis`).
`tam` is `market.get("tam_sam_som", \x7b\x7d).get("TAM", 0)`; `growthRate` is
`market.get("growth_rate", 0)`; `pmfSignals` is `len(market.get("pmf_signals", []))`. -/
structure MarketD where
  tam : ℚ
  growthRate : ℚ
  pmfSignals : ℕ
deriving DecidableEq

/-- The `funding` dictionary: `stage` is `funding.get("stage", "")`,
`totalFundingKrw` is `funding.get("total_funding_krw", 0)`. -/
structure FundingD where
  stage : String
  totalFundingKrw : ℚ
deriving DecidableEq

/-- The `comparison` dictionary, keeping the lengths of the two lists. -/
structure ComparisonD where
  ourStrengths : ℕ
  ourWeaknesses : ℕ
deriving DecidableEq

/-- The slice of the pipeline state read by `Scorer` and `DecisionMaker`.
`scoreBreakdownFinal` is `state.get("score_breakdown", \x7b\x7d).get("final")`
(`none` when the key is missing or holds Python `None`); `score` is the optional
`state["score"]` (read with default `0.0`); `growthScore` is
`state.get("growth", \x7b\x7d).get("score", 0)`; `comparisonMode` is the
`comparison_mode` entry (never read by the scorer). -/
structure CState where
  tech : TechD
  market : MarketD
  funding : FundingD
  comparison : ComparisonD
  scoreBreakdownFinal : Option ℚ
  score : Option ℚ
  growthScore : ℚ
  comparisonMode : String
deriving DecidableEq

/-! DecisionMaker (src/agents/decision_maker.py) -/

/-- `DecisionMakerConfig.__post_init__` default grade thresholds, in dict insertion order. -/
def gradeThresholds : List (String × ℚ) :=
  [("S", 90), ("A", 75), ("B", 60), ("C", 45), ("D", 0)]

/-- Stable insertion used to model Python `sorted(..., key=lambda x: x[1], reverse=True)`. -/
def insertDescByVal (x : String × ℚ) : List (String × ℚ) → List (String × ℚ)
  | [] => [x]
  | y :: ys => if y.2 < x.2 then x :: y :: ys else y :: insertDescByVal x ys

/-- Sort an association list by value, descending (model of Python `sorted(..., reverse=True)`). -/
def sortDescByVal (l : List (String × ℚ)) : List (String × ℚ) :=
  l.foldr insertDescByVal []

/-- The loop body of `_determine_grade`: first entry whose threshold the score reaches. -/
def firstMatchingGrade : List (String × ℚ) → ℚ → String
  | [], _ => "D"
  | (g, t) :: rest, s => if t ≤ s then g else firstMatchingGrade rest s

/-- `DecisionMaker._determine_grade`. -/
def determineGrade (score : ℚ) : String :=
  firstMatchingGrade (sortDescByVal gradeThresholds) score

/-- `DecisionMaker._make_decision` lookup table. -/
def decisionMap : List (String × String) :=
  [("S", "최우선 투자 추천"), ("A", "적극 투자 추천"), ("B", "조건부 투자 추천"),
   ("C", "투자 보류"), ("D", "투자 불가")]

/-- `DecisionMaker._make_decision`. -/
def makeDecision (grade : String) : String :=
  ((decisionMap.find? fun p => p.1 == grade).map fun p => p.2).getD "판단 보류"

/-- Funding stages exempt from the early-stage risk factor in `_assess_risk`. -/
def matureStages : List String :=
  ["Series A", "Series B", "Series C", "시리즈 A", "시리즈 B"]

/-- The risk-factor count of `DecisionMaker._assess_risk`: seven independent
binary contributions (TRL, patents, TAM, PMF, stage, total funding, weaknesses). -/
def riskFactors (s : CState) : ℕ :=
  (match s.tech.trlLevel with
   | some trl => if trl < 7 then 1 else 0
   | none => 1)
  + (if s.tech.patents = 0 then 1 else 0)
  + (if s.market.tam < 10 then 1 else 0)
  + (if s.market.pmfSignals < 2 then 1 else 0)
  + (if s.funding.stage ≠ "" ∧ s.funding.stage ∉ matureStages then 1 else 0)
  + (if s.funding.totalFundingKrw < 10 then 1 else 0)
  + (if s.comparison.ourStrengths < s.comparison.ourWeaknesses then 1 else 0)

/-- `DecisionMaker._assess_risk` (its `grade` argument is never used by the source). -/
def assessRisk (s : CState) : String :=
  if 5 ≤ riskFactors s then "높음" else if 3 ≤ riskFactors s then "중간" else "낮음"

/-- The risk verdict as a function of the factor count alone. -/
def riskLevelOfCount (n : ℕ) : String :=
  if 5 ≤ n then "높음" else if 3 ≤ n then "중간" else "낮음"

/-- The positive-reason checklist of `_generate_reasons`, in source order. -/
def reasonsChecklist (s : CState) : List String :=
  (match s.tech.trlLevel with
   | some trl => if 7 ≤ trl then ["높은 기술 성숙도 (TRL " ++ toString trl ++ ")"] else []
   | none => [])
  ++ (if 3 ≤ s.tech.patents then
        ["강력한 IP 포트폴리오 (특허 " ++ toString s.tech.patents ++ "건)"] else [])
  ++ (if 50 ≤ s.market.tam then
        ["대규모 시장 기회 (TAM $" ++ toString s.market.tam ++ "B)"] else [])
  ++ (if s.market.growthRate ≠ 0 ∧ 15 / 100 ≤ s.market.growthRate then
        ["높은 시장 성장률 (" ++ toString (s.market.growthRate * 100) ++ "%)"] else [])
  ++ (if 3 ≤ s.market.pmfSignals then ["강력한 PMF 검증"] else [])
  ++ (if 50 ≤ s.funding.totalFundingKrw then
        ["안정적 자금 확보 (" ++ toString s.funding.totalFundingKrw ++ "억원)"] else [])
  ++ (if 3 ≤ s.comparison.ourStrengths then
        ["경쟁 우위 확보 (" ++ toString s.comparison.ourStrengths ++ "개 강점)"] else [])

/-- The grade-tier opening line inserted at position 0 by `_generate_reasons`
(only grades S, A and B receive one). -/
def gradeOpening (grade : String) : List String :=
  if grade = "S" then ["모든 평가 지표에서 우수한 성과"]
  else if grade = "A" then ["대부분의 평가 지표에서 양호한 성과"]
  else if grade = "B" then ["일부 개선이 필요하나 잠재력 있음"]
  else []

/-- `DecisionMaker._generate_reasons` (`reasons[:5]`). -/
def generateReasons (s : CState) (grade : String) : List String :=
  (gradeOpening grade ++ reasonsChecklist s).take 5

/-- Funding stages that trigger the early-stage warning in `_generate_warnings`. -/
def earlyStages : List String := ["Seed", "Pre-Seed", "시드", "프리시드"]

/-- The warning checklist of `_generate_warnings`, in source order. -/
def warningsChecklist (s : CState) : List String :=
  (match s.tech.trlLevel with
   | some trl => if trl < 7 then ["기술 성숙도 낮음 (TRL " ++ toString trl ++ ")"] else []
   | none => ["기술 성숙도 낮음 (TRL N/A)"])
  ++ (if s.tech.patents = 0 then ["특허 보호 없음 - IP 전략 필요"] else [])
  ++ (if s.market.tam < 10 then
        ["제한적 시장 규모 (TAM $" ++ toString s.market.tam ++ "B)"] else [])
  ++ (if s.market.pmfSignals < 2 then ["PMF 검증 부족"] else [])
  ++ (if s.funding.totalFundingKrw < 10 then
        ["제한적 투자 유치 (" ++ toString s.funding.totalFundingKrw ++ "억원)"] else [])
  ++ (if s.funding.stage = "" ∨ s.funding.stage ∈ earlyStages then
        ["초기 투자 단계 - 추가 자금 확보 필요"] else [])
  ++ (if 3 ≤ s.comparison.ourWeaknesses then
        ["경쟁 약점 " ++ toString s.comparison.ourWeaknesses ++ "개 존재"] else [])

/-- The risk-tier opening line inserted at position 0 by `_generate_warnings`. -/
def riskOpening (risk : String) : List String :=
  if risk = "높음" then ["⚠️ 높은 투자 리스크 - 신중한 검토 필요"]
  else if risk = "중간" then ["⚠️ 중간 수준 리스크 - 모니터링 필요"]
  else []

/-- `DecisionMaker._generate_warnings` (`warnings[:5]`). -/
def generateWarnings (s : CState) (risk : String) : List String :=
  (riskOpening risk ++ warningsChecklist s).take 5

/-- `state.get("score_breakdown", \x7b\x7d).get("final") or state.get("score", 0.0)`:
a falsy `final` (missing, `None`, or `0.0`) falls back to `state["score"]`. -/
def finalScoreOf (s : CState) : ℚ :=
  match s.scoreBreakdownFinal with
  | some v => if v = 0 then s.score.getD 0 else v
  | none => s.score.getD 0

/-- The `decision` dictionary emitted by `DecisionMaker.run`. -/
structure Decision where
  grade : String
  decision : String
  riskLevel : String
  reasons : List String
  warnings : List String
  finalScore : ℚ
deriving DecidableEq

/-- `DecisionMaker.run` with the default config. -/
def DecisionMaker.run (s : CState) : Decision :=
  let finalScore := finalScoreOf s
  let grade := determineGrade finalScore
  let decision := makeDecision grade
  let riskLevel := assessRisk s
  let reasons := generateReasons s grade
  let warnings := generateWarnings s riskLevel
  ⟨grade, decision, riskLevel, reasons, warnings, finalScore⟩

/-! Scorer (src/agents/scorer.py) -/

/-- `ScorerConfig` (defaults `berkus_weight=0.4`, `scorecard_weight=0.6`). -/
structure ScorerConfig where
  berkusWeight : ℚ
  scorecardWeight : ℚ
deriving DecidableEq

/-- The default `ScorerConfig()`. -/
def defaultScorerConfig : ScorerConfig := ⟨2 / 5, 3 / 5⟩

/-- `dict.get(key, default)` over an association list. -/
def dictGetD (d : List (String × ℚ)) (k : String) (dflt : ℚ) : ℚ :=
  ((d.find? fun p => p.1 == k).map fun p => p.2).getD dflt

/-- Berkus category 1, sound idea: gated on the truthiness of `trl_level`
(`None` and `0` both skip the block), then TRL ≥ 7 / ≥ 4 / otherwise. -/
def soundIdeaValue (s : CState) : ℚ :=
  match s.tech.trlLevel with
  | some trl =>
      if trl ≠ 0 then
        (if 7 ≤ trl then 500000 else if 4 ≤ trl then 300000 else 100000)
      else 0
  | none => 0

/-- Berkus category 2, prototype: TRL ≥ 6 full, else core-technology partial. -/
def prototypeValue (s : CState) : ℚ :=
  match s.tech.trlLevel with
  | some trl => if 6 ≤ trl then 500000 else if s.tech.coreTechnology then 250000 else 0
  | none => if s.tech.coreTechnology then 250000 else 0

/-- Berkus category 3, quality team: the source sets `team_info = \x7b\x7d`
unconditionally, so every tier test fails and the category contributes 0. -/
def qualityTeamValue (_s : CState) : ℚ := 0

/-- `funding_history = [1] if total_funding > 0 else []` — the synthesized
funding-round count, always 0 or 1. -/
def fundingRoundCount (s : CState) : ℕ :=
  if 0 < s.funding.totalFundingKrw then 1 else 0

/-- Berkus category 4, strategic relationships: ≥2 rounds full, ≥1 partial, else 0. -/
def strategicRelationshipsValue (s : CState) : ℚ :=
  if 2 ≤ fundingRoundCount s then 500000
  else if 1 ≤ fundingRoundCount s then 300000
  else 0

/-- Berkus category 5, product rollout: PMF signals ≥ 3 full, ≥ 1 partial, else 0. -/
def productRolloutValue (s : CState) : ℚ :=
  if 3 ≤ s.market.pmfSignals then 500000
  else if 1 ≤ s.market.pmfSignals then 300000
  else 0

/-- The accumulated `total_value` of `Scorer._calculate_berkus`. -/
def berkusTotalValue (s : CState) : ℚ :=
  soundIdeaValue s + prototypeValue s + qualityTeamValue s
    + strategicRelationshipsValue s + productRolloutValue s

/-- `Scorer._calculate_berkus`: `round(total_value / 2500000 * 100, 2)`. -/
def calculateBerkus (s : CState) : ℚ :=
  round2 (berkusTotalValue s / 2500000 * 100)

/-- The hard-coded `default_weights` of `Scorer._calculate_scorecard`. -/
def defaultScorecardWeights : List (String × ℚ) :=
  [("management", 30), ("opportunity", 25), ("product", 15),
   ("competitive_environment", 10), ("marketing", 10),
   ("need_for_funding", 5), ("other", 5)]

/-- Scorecard management sub-score: `team_info = \x7b\x7d`, so the 30-point
else-branch is always taken. -/
def managementScore (_s : CState) : ℚ := 30

/-- Scorecard opportunity sub-score from TAM tiers. -/
def opportunityScore (s : CState) : ℚ :=
  if 100 ≤ s.market.tam then 100
  else if 50 ≤ s.market.tam then 80
  else if 10 ≤ s.market.tam then 60
  else 40

/-- Scorecard competitive-environment sub-score: `min(strengths * 30, 100)`. -/
def competitiveScore (s : CState) : ℚ :=
  min ((s.comparison.ourStrengths : ℚ) * 30) 100

/-- Scorecard marketing sub-score: `min(pmf_signals * 30, 100)`. -/
def marketingScore (s : CState) : ℚ :=
  min ((s.market.pmfSignals : ℚ) * 30) 100

/-- Scorecard need-for-funding sub-score: `min(len(funding_history) * 30, 100)`. -/
def fundingScore (s : CState) : ℚ :=
  min ((fundingRoundCount s : ℚ) * 30) 100

/-- `Scorer._calculate_scorecard`: an empty (falsy) RAG weights dict falls back to
the defaults, each weight is read with `weights.get(key, default)`, and the total
is rounded to two decimals. -/
def calculateScorecard (scorecardWeights : List (String × ℚ)) (s : CState) : ℚ :=
  let weights := if scorecardWeights = [] then defaultScorecardWeights else scorecardWeights
  round2 (managementScore s / 100 * dictGetD weights "management" 30
    + opportunityScore s / 100 * dictGetD weights "opportunity" 25
    + s.tech.score / 100 * dictGetD weights "product" 15
    + competitiveScore s / 100 * dictGetD weights "competitive_environment" 10
    + marketingScore s / 100 * dictGetD weights "marketing" 10
    + fundingScore s / 100 * dictGetD weights "need_for_funding" 5
    + s.growthScore / 100 * dictGetD weights "other" 5)

/-- The result dictionary of `Scorer.run` (`score` equals `breakdown["final"]`). -/
structure ScoreResult where
  score : ℚ
  berkus : ℚ
  scorecard : ℚ
  final : ℚ
deriving DecidableEq

/-- `Scorer.run`: weighted average of the two method scores, rounded to 2 decimals. -/
def Scorer.run (cfg : ScorerConfig) (scorecardWeights : List (String × ℚ))
    (s : CState) : ScoreResult :=
  let b := calculateBerkus s
  let sc := calculateScorecard scorecardWeights s
  let finalScore := b * cfg.berkusWeight + sc * cfg.scorecardWeight
  ⟨round2 finalScore, b, sc, round2 finalScore⟩

/-- Replace the TRL level, keeping every other signal fixed. -/
def withTrl (s : CState) (t : ℤ) : CState :=
  { s with tech := { s.tech with trlLevel := some t } }

/-! EvaluationRAG normalization (src/rag/evaluation_rag.py) -/

/-- `sum(data.values())` over an association list. -/
def sumValues (d : List (String × ℚ)) : ℚ := (d.map fun p => p.2).sum

/-- `get_berkus_criteria` validation: when the caps do not sum to 2,500,000,
every value is rescaled by `2500000 / total` and truncated with Python `int`. -/
def normalizeBerkusCriteria (data : List (String × ℚ)) : List (String × ℚ) :=
  if sumValues data ≠ 2500000 then
    data.map fun p => (p.1, (intTrunc (p.2 * (2500000 / sumValues data)) : ℚ))
  else data

/-- `get_scorecard_weights` validation: rescale by `1 / total` only when the sum
deviates from 1.0 by more than 0.01.  The guard `abs(total - 1.0) > 0.01` is a
float comparison in the source; it is modelled here as the exact-rational
comparison, which agrees with the floats except within rounding error of the
exact boundary `|total - 1| = 0.01`, so the claims about it are settled away
from that boundary. -/
def normalizeScorecardWeights (data : List (String × ℚ)) : List (String × ℚ) :=
  if 1 / 100 < |sumValues data - 1| then data.map fun p => (p.1, p.2 / sumValues data)
  else data

/-! GrowthAgent classifier (src/agents/growth_agent.py) -/

/-- `dict.get(key)` over an association list (may be `None`). -/
def lookupThreshold (d : List (String × ℚ)) (k : String) : Option ℚ :=
  (d.find? fun p => p.1 == k).map fun p => p.2

/-- Python `t and rate >= t` for an optional threshold: `None` and `0` are falsy. -/
def truthyAndGE (t : Option ℚ) (r : ℚ) : Bool :=
  match t with
  | some v => decide (v ≠ 0) && decide (v ≤ r)
  | none => false

/-- `GrowthAgent._label_growth_rate`. -/
def labelGrowthRate (thresholds : List (String × ℚ)) (growthRate : Option ℚ) : String :=
  match growthRate with
  | none => "데이터 없음"
  | some r =>
      if truthyAndGE (lookupThreshold thresholds "우수") r then "우수"
      else if truthyAndGE (lookupThreshold thresholds "양호") r then "양호"
      else if truthyAndGE (lookupThreshold thresholds "경고") r then "경고"
      else "심각"

/-- `GrowthAgent._score_growth_rate` (`growth_rate_weight` passed explicitly;
its config default is 30). -/
def scoreGrowthRate (thresholds : List (String × ℚ)) (growthRateWeight : ℚ)
    (growthRate : Option ℚ) : ℚ :=
  match growthRate with
  | none => 0
  | some r =>
      let e0 := (lookupThreshold thresholds "우수").getD (1 / 10)
      let e := if e0 ≤ 0 then 1 / 10 else e0
      min (max r 0 / e) 1 * growthRateWeight

/-! Concrete states used by the counterexamples. -/

/-- Every optional signal absent: no TRL, no patents, no core technology, zero
TAM and growth data, no PMF signals, empty funding stage, zero funding, empty
comparison lists, no score breakdown and no score. -/
def allAbsentState : CState :=
  ⟨⟨none, 0, false, 0⟩, ⟨0, 0, 0⟩, ⟨"", 0⟩, ⟨0, 0⟩, none, none, 0, "absolute"⟩

/-- TRL 5, no patents, TAM 5, three PMF signals, Series A with 50억, balanced
comparison, stored final score 80: three base warnings fire and the risk-factor
count is exactly 3. -/
def warnMediumState : CState :=
  ⟨⟨some 5, 0, false, 0⟩, ⟨5, 0, 3⟩, ⟨"Series A", 50⟩, ⟨0, 0⟩, some 80, none, 0, "absolute"⟩

/-- A state triggering all seven risk factors at once ("Seed" stage is truthy and
outside the mature list, and one weakness outnumbers zero strengths). -/
def riskSevenState : CState :=
  ⟨⟨none, 0, false, 0⟩, ⟨0, 0, 0⟩, ⟨"Seed", 0⟩, ⟨0, 1⟩, none, none, 0, "absolute"⟩

/-- A relative-mode evaluation with three strengths and no weaknesses. -/
def relativeBase : CState :=
  ⟨⟨some 8, 2, true, 70⟩, ⟨100, 1 / 5, 3⟩, ⟨"Series A", 60⟩, ⟨3, 0⟩, none, none, 65, "relative"⟩

/-- The same evaluation with five weaknesses instead of none. -/
def relativeMoreWeak : CState :=
  { relativeBase with comparison := ⟨3, 5⟩ }

/-- Thresholds that are strictly ordered yet carry a (falsy) zero warning level. -/
def cexThresholds : List (String × ℚ) := [("우수", 1 / 10), ("양호", 1 / 20), ("경고", 0)]

/-! Helper lemmas -/

theorem roundHalfEven_floor_le (z : ℚ) : ⌊z⌋ ≤ roundHalfEven z := by
  unfold roundHalfEven
  split_ifs with h1 h2
  · exact le_refl _
  · omega
  · rw [round_eq]
    exact Int.floor_mono (by linarith)

theorem roundHalfEven_le_floor_add_one (z : ℚ) : roundHalfEven z ≤ ⌊z⌋ + 1 := by
  unfold roundHalfEven
  split_ifs with h1 h2
  · omega
  · exact le_refl _
  · rw [round_eq]
    have : ⌊z + 1 / 2⌋ ≤ ⌊z + 1⌋ := Int.floor_mono (by linarith)
    simpa [Int.floor_add_one] using this

theorem roundHalfEven_mono {x y : ℚ} (h : x ≤ y) : roundHalfEven x ≤ roundHalfEven y := by
  rcases lt_or_le ⌊x⌋ ⌊y⌋ with hf | hf
  · have h1 := roundHalfEven_le_floor_add_one x
    have h2 := roundHalfEven_floor_le y
    omega
  · have hf' : ⌊y⌋ ≤ ⌊x⌋ := hf
    have hmono : ⌊x⌋ ≤ ⌊y⌋ := Int.floor_mono h
    have hfl : ⌊x⌋ = ⌊y⌋ := le_antisymm hmono hf'
    have hx : x = (⌊x⌋ : ℚ) + Int.fract x := by rw [Int.fract]; ring
    have hy : y = (⌊y⌋ : ℚ) + Int.fract y := by rw [Int.fract]; ring
    have hfr : Int.fract x ≤ Int.fract y := by
      rw [Int.fract, Int.fract, hfl]
      linarith
    by_cases hx2 : Int.fract x = 1 / 2 <;> by_cases hy2 : Int.fract y = 1 / 2
    · have hxy : x = y := by rw [hx, hy, hfl, hx2, hy2]
      rw [hxy]
    · -- fract x = 1/2, fract y > 1/2 : roundHalfEven y = ⌊y⌋ + 1 at least
      have hygt : 1 / 2 < Int.fract y := lt_of_le_of_ne (hx2 ▸ hfr) (Ne.symm hy2)
      have h1 := roundHalfEven_le_floor_add_one x
      have h2 : ⌊y⌋ + 1 ≤ roundHalfEven y := by
        unfold roundHalfEven
        rw [if_neg hy2, round_eq]
        have : ((⌊y⌋ + 1 : ℤ) : ℚ) ≤ y + 1 / 2 := by
          push_cast
          rw [hy] at *
          linarith
        exact Int.le_floor.mpr this
      omega
    · -- fract x < 1/2, so roundHalfEven x = ⌊x⌋
      have hxlt : Int.fract x < 1 / 2 := lt_of_le_of_ne (hy2 ▸ hfr) hx2
      have h1 : roundHalfEven x ≤ ⌊x⌋ := by
        unfold roundHalfEven
        rw [if_neg hx2, round_eq]
        have hlt : x + 1 / 2 < ((⌊x⌋ + 1 : ℤ) : ℚ) := by
          push_cast
          nlinarith [hx, hxlt]
        exact Int.lt_add_one_iff.mp (Int.floor_lt.mpr hlt)
      have h2 := roundHalfEven_floor_le y
      omega
    · -- neither is a tie: plain round is monotone
      unfold roundHalfEven
      rw [if_neg hx2, if_neg hy2, round_eq, round_eq]
      exact Int.floor_mono (by linarith)

theorem round2_mono {x y : ℚ} (h : x ≤ y) : round2 x ≤ round2 y := by
  unfold round2
  have : roundHalfEven (x * 100) ≤ roundHalfEven (y * 100) :=
    roundHalfEven_mono (by linarith)
  have hcast : (roundHalfEven (x * 100) : ℚ) ≤ (roundHalfEven (y * 100) : ℚ) := by
    exact_mod_cast this
  linarith

theorem intTrunc_le_self {q : ℚ} (h : 0 ≤ q) : (intTrunc q : ℚ) ≤ q := by
  unfold intTrunc
  rw [if_pos h]
  exact Int.floor_le q

theorem sub_one_le_intTrunc {q : ℚ} (h : 0 ≤ q) : q - 1 ≤ (intTrunc q : ℚ) := by
  unfold intTrunc
  rw [if_pos h]
  exact le_of_lt (Int.sub_one_lt_floor q)

theorem sumValues_cons (a : String × ℚ) (l : List (String × ℚ)) :
    sumValues (a :: l) = a.2 + sumValues l := by
  simp [sumValues]

theorem sumValues_nonneg (d : List (String × ℚ)) (h : ∀ p ∈ d, 0 ≤ p.2) :
    0 ≤ sumValues d := by
  induction d with
  | nil => simp [sumValues]
  | cons a l ih =>
      rw [sumValues_cons]
      have ha := h a (List.mem_cons_self a l)
      have hl := ih fun p hp => h p (List.mem_cons_of_mem a hp)
      linarith

theorem sumValues_pos (d : List (String × ℚ)) (h : ∀ p ∈ d, 0 < p.2) (hne : d ≠ []) :
    0 < sumValues d := by
  cases d with
  | nil => exact absurd rfl hne
  | cons a l =>
      rw [sumValues_cons]
      have ha := h a (List.mem_cons_self a l)
      have hl := sumValues_nonneg l fun p hp => le_of_lt (h p (List.mem_cons_of_mem a hp))
      linarith

theorem sumValues_trunc_bounds (d : List (String × ℚ)) (f : ℚ)
    (h : ∀ p ∈ d, 0 ≤ p.2 * f) :
    sumValues d * f - d.length
        ≤ sumValues (d.map fun p => (p.1, (intTrunc (p.2 * f) : ℚ)))
      ∧ sumValues (d.map fun p => (p.1, (intTrunc (p.2 * f) : ℚ))) ≤ sumValues d * f := by
  induction d with
  | nil => simp [sumValues]
  | cons a l ih =>
      have ha := h a (List.mem_cons_self a l)
      obtain ⟨ih1, ih2⟩ := ih fun p hp => h p (List.mem_cons_of_mem a hp)
      have h1 := sub_one_le_intTrunc ha
      have h2 := intTrunc_le_self ha
      constructor
      · rw [List.map_cons, sumValues_cons, sumValues_cons, List.length_cons]
        push_cast
        nlinarith [ih1]
      · rw [List.map_cons, sumValues_cons, sumValues_cons]
        nlinarith [ih2]

theorem sumValues_map_div (d : List (String × ℚ)) (t : ℚ) :
    sumValues (d.map fun p => (p.1, p.2 / t)) = sumValues d / t := by
  induction d with
  | nil => simp [sumValues]
  | cons a l ih =>
      rw [List.map_cons, sumValues_cons, sumValues_cons, ih, add_div]

theorem sortDescByVal_gradeThresholds :
    sortDescByVal gradeThresholds =
      [("S", 90), ("A", 75), ("B", 60), ("C", 45), ("D", 0)] := by
  decide

/-! Claim theorems -/

/-- C1: `DecisionMaker._determine_grade` is the first match in the descending
threshold table with inclusive lower bounds — "S" for scores ≥ 90, else "A" ≥ 75,
else "B" ≥ 60, else "C" ≥ 45, else "D"; in particular 89.9 grades "A" and 90.0
grades "S". -/
theorem claim_C1_grade_table :
    (∀ s : ℚ, determineGrade s =
      if 90 ≤ s then "S"
      else if 75 ≤ s then "A"
      else if 60 ≤ s then "B"
      else if 45 ≤ s then "C"
      else "D")
    ∧ determineGrade (899 / 10) = "A" ∧ determineGrade 90 = "S" := by
  refine ⟨?_,
    by rw [determineGrade, sortDescByVal_gradeThresholds]; norm_num [firstMatchingGrade],
    by rw [determineGrade, sortDescByVal_gradeThresholds]; norm_num [firstMatchingGrade]⟩
  intro s
  rw [determineGrade, sortDescByVal_gradeThresholds]
  simp only [firstMatchingGrade]
  split_ifs <;> rfl

/-- C2 counterexample: an evaluation whose decision carries 4 warnings yet whose
risk level stays "중간" (medium) and whose grade stays the raw "A" — the source
has no feedback rule forcing risk high or downgrading the grade. -/
theorem claim_C2_counterexample :
    3 ≤ (DecisionMaker.run warnMediumState).warnings.length
    ∧ (DecisionMaker.run warnMediumState).warnings.length = 4
    ∧ (DecisionMaker.run warnMediumState).riskLevel = "중간"
    ∧ (DecisionMaker.run warnMediumState).riskLevel ≠ "높음"
    ∧ (DecisionMaker.run warnMediumState).grade = "A"
    ∧ (DecisionMaker.run warnMediumState).grade ≠ "B" := by
  decide

/-- C2 amended: there is no warnings-based feedback rule — the emitted grade is
always exactly the raw threshold grade of the final score, and the risk level is
"높음" (high) exactly when the independent risk-factor count reaches 5,
regardless of how many warnings were generated. -/
theorem claim_C2_no_feedback_rule (s : CState) :
    (DecisionMaker.run s).grade = determineGrade (finalScoreOf s)
    ∧ (DecisionMaker.run s).riskLevel = assessRisk s
    ∧ ((DecisionMaker.run s).riskLevel = "높음" ↔ 5 ≤ riskFactors s) := by
  refine ⟨rfl, rfl, ?_⟩
  show assessRisk s = "높음" ↔ 5 ≤ riskFactors s
  unfold assessRisk
  by_cases h1 : 5 ≤ riskFactors s
  · simp [h1]
  · rw [if_neg h1]
    constructor
    · intro h
      exfalso
      rcases le_or_lt 3 (riskFactors s) with h2 | h2
      · rw [if_pos h2] at h
        exact (by decide : ("중간" : String) ≠ "높음") h
      · rw [if_neg (by omega)] at h
        exact (by decide : ("낮음" : String) ≠ "높음") h
    · intro h
      exact absurd h h1

/-- C4 counterexample: a state in which seven risk factors count at once — the
immature funding stage and the low total funding are two separate factors, so
the count exceeds the six factors the claim allows. -/
theorem claim_C4_counterexample :
    riskFactors riskSevenState = 7 ∧ assessRisk riskSevenState = "높음" := by
  decide

/-- C4 amended: `_assess_risk` counts seven binary risk factors (TRL low or
absent; zero patents; TAM < 10; fewer than 2 PMF signals; immature funding
stage; total funding below 10; weaknesses outnumbering strengths) — an immature
stage together with low funding contributes two factors, the count is bounded by
7, and the verdict is high at ≥ 5, medium at ≥ 3, low otherwise. -/
theorem claim_C4_seven_risk_factors (s : CState) :
    riskFactors s ≤ 7 ∧ assessRisk s = riskLevelOfCount (riskFactors s) := by
  constructor
  · have h0 : ∀ o : Option ℤ,
        (match o with
         | some trl => if trl < 7 then (1 : ℕ) else 0
         | none => 1) ≤ 1 := by
      rintro (_ | trl)
      · exact le_refl 1
      · dsimp only
        split_ifs <;> omega
    have h1 := h0 s.tech.trlLevel
    unfold riskFactors
    split_ifs <;> omega
  · rfl

/-- C5 counterexample: with every optional signal absent the reasons list is
empty, not of length ≥ 1 — the fallback opening line exists only for grades S, A
and B, and the all-absent evaluation grades "D". -/
theorem claim_C5_counterexample :
    ¬ 1 ≤ (DecisionMaker.run allAbsentState).reasons.length := by
  decide

/-- C5 amended: the all-absent evaluation still produces a decision with grade
"D", risk "높음" (high) and exactly 5 warnings, but its reasons list is empty
(grade "D" receives no opening line). -/
theorem claim_C5_all_absent :
    (DecisionMaker.run allAbsentState).grade = "D"
    ∧ (DecisionMaker.run allAbsentState).riskLevel = "높음"
    ∧ (DecisionMaker.run allAbsentState).warnings.length = 5
    ∧ (DecisionMaker.run allAbsentState).reasons = [] := by
  decide

/-- C10: `DecisionMaker.run` grades from `score_breakdown.final` only when that
value is truthy; a missing or zero value falls back to `state["score"]`
(default 0), so a stored final score of exactly 0 is indistinguishable from an
absent one and the fallback score then determines the grade. -/
theorem claim_C10_score_fallback (s : CState) (v : ℚ) :
    DecisionMaker.run { s with scoreBreakdownFinal := some 0 }
        = DecisionMaker.run { s with scoreBreakdownFinal := none }
    ∧ (DecisionMaker.run { s with scoreBreakdownFinal := none }).finalScore
        = s.score.getD 0
    ∧ (DecisionMaker.run { s with scoreBreakdownFinal := none }).grade
        = determineGrade (s.score.getD 0)
    ∧ (DecisionMaker.run { s with scoreBreakdownFinal := some v }).finalScore
        = (if v = 0 then s.score.getD 0 else v)
    ∧ (DecisionMaker.run { s with scoreBreakdownFinal := some v }).grade
        = determineGrade (if v = 0 then s.score.getD 0 else v) := by
  refine ⟨?_, rfl, rfl, ?_, ?_⟩
  · simp only [DecisionMaker.run, finalScoreOf]
    norm_num
    exact ⟨rfl, rfl, rfl⟩
  · show finalScoreOf { s with scoreBreakdownFinal := some v } = _
    simp [finalScoreOf]
  · show determineGrade (finalScoreOf { s with scoreBreakdownFinal := some v }) = _
    simp [finalScoreOf]

/-- C3 counterexample: in relative mode the final score ignores the weaknesses
list entirely — two relative-mode evaluations differing only in the weaknesses
list (strengths 3 vs weaknesses 0 and 5) receive the same score, which also
equals the absolute-mode (solo) score with no competitor differential. -/
theorem claim_C3_counterexample :
    relativeBase.comparisonMode = "relative"
    ∧ relativeMoreWeak.comparisonMode = "relative"
    ∧ relativeBase.comparison.ourStrengths = 3
    ∧ relativeBase.comparison.ourWeaknesses = 0
    ∧ relativeMoreWeak.comparison.ourWeaknesses = 5
    ∧ (Scorer.run defaultScorerConfig [] relativeBase).score
        = (Scorer.run defaultScorerConfig [] relativeMoreWeak).score
    ∧ (Scorer.run defaultScorerConfig [] { relativeBase with comparisonMode := "absolute" }).score
        = (Scorer.run defaultScorerConfig [] relativeBase).score := by
  exact ⟨rfl, rfl, rfl, rfl, rfl, rfl, rfl⟩

/-- C3 amended: `Scorer.run` never reads the comparison mode or the weaknesses
list — every evaluation gets the solo Berkus/Scorecard weighted score, with no
competitor differential applied in relative mode. -/
theorem claim_C3_mode_independent (cfg : ScorerConfig) (wts : List (String × ℚ))
    (s : CState) (m : String) (k : ℕ) :
    Scorer.run cfg wts
        { s with comparisonMode := m, comparison := ⟨s.comparison.ourStrengths, k⟩ }
      = Scorer.run cfg wts s := rfl

/-- C6 counterexample: no candidate state is ever granted the full 500,000
strategic-relationships allocation — the synthesized funding-round count never
reaches 2. -/
theorem claim_C6_counterexample :
    ¬ ∃ s : CState, strategicRelationshipsValue s = 500000 := by
  rintro ⟨s, h⟩
  unfold strategicRelationshipsValue fundingRoundCount at h
  by_cases hf : 0 < s.funding.totalFundingKrw <;> simp [hf] at h

/-- C6 amended: the strategic-relationships category grants its full 500,000
exactly when the funding-round count reaches 2 and its partial 300,000 exactly
when the count is 1, but the count is synthesized as `[1] if total_funding > 0
else []`, so it never exceeds 1 and the full allocation is unreachable (the
category yields 300,000 for positive total funding, 0 otherwise). -/
theorem claim_C6_strategic_allocation (s : CState) :
    (strategicRelationshipsValue s = 500000 ↔ 2 ≤ fundingRoundCount s)
    ∧ (strategicRelationshipsValue s = 300000 ↔ fundingRoundCount s = 1)
    ∧ (strategicRelationshipsValue s = 0 ↔ fundingRoundCount s = 0)
    ∧ fundingRoundCount s ≤ 1 := by
  unfold strategicRelationshipsValue fundingRoundCount
  by_cases hf : 0 < s.funding.totalFundingKrw <;> simp [hf]

/-- C9: raising TRL from 6 to 7 with every other signal fixed never decreases
the Berkus score or the final weighted score (for any scorecard weights). -/
theorem claim_C9_trl_monotone (wts : List (String × ℚ)) (s : CState) :
    calculateBerkus (withTrl s 6) ≤ calculateBerkus (withTrl s 7)
    ∧ (Scorer.run defaultScorerConfig wts (withTrl s 6)).score
        ≤ (Scorer.run defaultScorerConfig wts (withTrl s 7)).score := by
  have htot : berkusTotalValue (withTrl s 7) = berkusTotalValue (withTrl s 6) + 200000 := by
    show soundIdeaValue (withTrl s 7) + prototypeValue (withTrl s 7) + _ + _ + _ = _
    simp only [berkusTotalValue, soundIdeaValue, prototypeValue, qualityTeamValue,
      strategicRelationshipsValue, productRolloutValue, fundingRoundCount, withTrl]
    norm_num
    ring
  have hb : calculateBerkus (withTrl s 6) ≤ calculateBerkus (withTrl s 7) := by
    unfold calculateBerkus
    apply round2_mono
    rw [htot]
    linarith
  refine ⟨hb, ?_⟩
  have hsc : calculateScorecard wts (withTrl s 6) = calculateScorecard wts (withTrl s 7) := rfl
  show round2 (calculateBerkus (withTrl s 6) * (2 / 5)
      + calculateScorecard wts (withTrl s 6) * (3 / 5))
    ≤ round2 (calculateBerkus (withTrl s 7) * (2 / 5)
      + calculateScorecard wts (withTrl s 7) * (3 / 5))
  rw [hsc]
  apply round2_mono
  nlinarith [hb]

/-- C7 counterexample: normalization is not exact — rescaling the caps
`a=1, b=1, c=1` by `2500000/3` and truncating with `int` sums to 2,499,999, not
2,500,000; and a single scorecard weight of 1.005 sits strictly inside the 0.01
guard (a deviation of 0.005, where the float and the exact-rational comparison
agree), so it is left untouched and the weight sum misses 1.0 by 0.005, far more
than the claimed 1e-6 tolerance. -/
theorem claim_C7_counterexample :
    sumValues (normalizeBerkusCriteria [("a", 1), ("b", 1), ("c", 1)]) = 2499999
    ∧ sumValues (normalizeBerkusCriteria [("a", 1), ("b", 1), ("c", 1)]) ≠ 2500000
    ∧ sumValues (normalizeScorecardWeights [("a", 201 / 200)]) = 201 / 200
    ∧ 1 / 1000000 < |sumValues (normalizeScorecardWeights [("a", 201 / 200)]) - 1| := by
  have hq : intTrunc ((1 : ℚ) * (2500000 / 3)) = 833333 := by
    unfold intTrunc
    rw [if_pos (by norm_num), Int.floor_eq_iff]
    constructor <;> norm_num
  have hsum : sumValues [("a", (1 : ℚ)), ("b", 1), ("c", 1)] = 3 := by
    norm_num [sumValues]
  have hb : normalizeBerkusCriteria [("a", 1), ("b", 1), ("c", 1)]
      = [("a", 833333), ("b", 833333), ("c", 833333)] := by
    unfold normalizeBerkusCriteria
    rw [hsum, if_pos (by norm_num), List.map_cons, List.map_cons, List.map_cons,
      List.map_nil]
    simp only [hq]
    norm_num
  have habs : |sumValues [("a", (201 : ℚ) / 200)] - 1| = 1 / 200 := by
    rw [show sumValues [("a", (201 : ℚ) / 200)] - 1 = 1 / 200 from by norm_num [sumValues]]
    exact abs_of_pos (by norm_num)
  have hw : normalizeScorecardWeights [("a", 201 / 200)] = [("a", 201 / 200)] := by
    unfold normalizeScorecardWeights
    rw [if_neg (by rw [habs]; norm_num)]
  have hwsum : sumValues (normalizeScorecardWeights [("a", 201 / 200)]) = 201 / 200 := by
    rw [hw]; norm_num [sumValues]
  refine ⟨by rw [hb]; norm_num [sumValues], by rw [hb]; norm_num [sumValues], hwsum, ?_⟩
  rw [hwsum, show (201 : ℚ) / 200 - 1 = 1 / 200 from by norm_num,
    abs_of_pos (by norm_num : (0 : ℚ) < 1 / 200)]
  norm_num


/-- C7 amended: for positive caps over a nonempty category list, the
post-normalization Berkus sum is at most 2,500,000 and within the category
count below it (the `int` truncation can undershoot, so the sum is not exact in
general); and for weights with nonzero total, the post-normalization scorecard
sum deviates from 1.0 by at most 0.01 — not 1e-6 — whichever side of the guard
is taken: when the rescale fires the sum becomes exactly 1 (in exact
arithmetic), and when it does not fire the deviation was already within 0.01. -/
theorem claim_C7_normalization_bounds (bdata wdata : List (String × ℚ))
    (hb : ∀ p ∈ bdata, 0 < p.2) (hbne : bdata ≠ [])
    (hw : sumValues wdata ≠ 0) :
    2500000 - (bdata.length : ℚ) ≤ sumValues (normalizeBerkusCriteria bdata)
    ∧ sumValues (normalizeBerkusCriteria bdata) ≤ 2500000
    ∧ |sumValues (normalizeScorecardWeights wdata) - 1| ≤ 1 / 100 := by
  have htpos : 0 < sumValues bdata := sumValues_pos bdata hb hbne
  have hberkus : 2500000 - (bdata.length : ℚ) ≤ sumValues (normalizeBerkusCriteria bdata)
      ∧ sumValues (normalizeBerkusCriteria bdata) ≤ 2500000 := by
    unfold normalizeBerkusCriteria
    by_cases hc : sumValues bdata = 2500000
    · rw [if_neg (by simpa using hc)]
      constructor
      · have : (0 : ℚ) ≤ (bdata.length : ℚ) := by positivity
        linarith [hc.ge]
      · exact hc.le
    · rw [if_pos hc]
      have hfpos : 0 < 2500000 / sumValues bdata := by positivity
      have hnn : ∀ p ∈ bdata, 0 ≤ p.2 * (2500000 / sumValues bdata) := fun p hp =>
        le_of_lt (mul_pos (hb p hp) hfpos)
      obtain ⟨h1, h2⟩ := sumValues_trunc_bounds bdata (2500000 / sumValues bdata) hnn
      have hmul : sumValues bdata * (2500000 / sumValues bdata) = 2500000 := by
        field_simp
      rw [hmul] at h1 h2
      exact ⟨h1, h2⟩
  refine ⟨hberkus.1, hberkus.2, ?_⟩
  unfold normalizeScorecardWeights
  by_cases hc : 1 / 100 < |sumValues wdata - 1|
  · rw [if_pos hc, sumValues_map_div, div_self hw]
    norm_num
  · rw [if_neg hc]
    linarith [not_lt.mp hc]

/-- C7 witness: the bounds instantiated at a one-category cap list that already
sums to 2,500,000 and a two-weight scorecard summing to 1. -/
theorem claim_C7_witness :
    2500000 - (([("sound_idea", (2500000 : ℚ))] : List (String × ℚ)).length : ℚ)
        ≤ sumValues (normalizeBerkusCriteria [("sound_idea", 2500000)])
    ∧ sumValues (normalizeBerkusCriteria [("sound_idea", 2500000)]) ≤ 2500000
    ∧ |sumValues (normalizeScorecardWeights [("management_team", 1 / 2), ("other", 1 / 2)]) - 1|
        ≤ 1 / 100 :=
  claim_C7_normalization_bounds [("sound_idea", 2500000)]
    [("management_team", 1 / 2), ("other", 1 / 2)]
    (by rintro p hp; simp only [List.mem_singleton] at hp; rw [hp]; norm_num)
    (by simp)
    (by norm_num [sumValues])

/-- C8 counterexample: with the ordered thresholds excellent = 0.10 > good =
0.05 > warning = 0 and the rate 0.02 ≥ warning, the labeler returns "심각"
(critical) instead of the claimed "경고" (warning) — a zero threshold is falsy in
`if warning and rate >= warning` and its tier is skipped. -/
theorem claim_C8_counterexample :
    ((1 : ℚ) / 20 < 1 / 10 ∧ (0 : ℚ) < 1 / 20 ∧ (0 : ℚ) ≤ 1 / 50)
    ∧ labelGrowthRate cexThresholds (some (1 / 50)) = "심각"
    ∧ ("심각" : String) ≠ "경고" := by
  refine ⟨⟨by norm_num, by norm_num, by norm_num⟩, ?_, by decide⟩
  have l1 : lookupThreshold cexThresholds "우수" = some (1 / 10) := rfl
  have l2 : lookupThreshold cexThresholds "양호" = some (1 / 20) := rfl
  have l3 : lookupThreshold cexThresholds "경고" = some 0 := rfl
  unfold labelGrowthRate
  rw [l1, l2, l3]
  simp only [truthyAndGE]
  norm_num

/-- C8 amended: for thresholds excellent > good > warning that are all nonzero
(truthy), the labeler returns "우수" when rate ≥ excellent, "양호" when rate ≥
good, "경고" when rate ≥ warning and "심각" otherwise (a zero threshold instead
disables its tier); a missing rate yields growth score 0 and the label
"데이터 없음", which is distinct from "심각". -/
theorem claim_C8_label_thresholds (e g w r wt : ℚ)
    (_hge : g < e) (_hwg : w < g) (he : e ≠ 0) (hg : g ≠ 0) (hw : w ≠ 0) :
    labelGrowthRate [("우수", e), ("양호", g), ("경고", w)] (some r)
      = (if e ≤ r then "우수" else if g ≤ r then "양호" else if w ≤ r then "경고" else "심각")
    ∧ labelGrowthRate [("우수", e), ("양호", g), ("경고", w)] none = "데이터 없음"
    ∧ scoreGrowthRate [("우수", e), ("양호", g), ("경고", w)] wt none = 0
    ∧ ("데이터 없음" : String) ≠ "심각" := by
  refine ⟨?_, rfl, rfl, by decide⟩
  have l1 : lookupThreshold [("우수", e), ("양호", g), ("경고", w)] "우수" = some e := rfl
  have l2 : lookupThreshold [("우수", e), ("양호", g), ("경고", w)] "양호" = some g := rfl
  have l3 : lookupThreshold [("우수", e), ("양호", g), ("경고", w)] "경고" = some w := rfl
  unfold labelGrowthRate
  rw [l1, l2, l3]
  simp only [truthyAndGE, he, hg, hw, ne_eq, not_false_eq_true, decide_True,
    Bool.not_false, Bool.true_and, decide_eq_true_eq]

/-- C8 witness: the labeler at the default thresholds (0.10, 0.05, 0.01) and
rate 0.03, which lands in the "양호" tier. -/
theorem claim_C8_witness :
    labelGrowthRate [("우수", (1 : ℚ) / 10), ("양호", 1 / 20), ("경고", 1 / 100)]
        (some (3 / 100))
      = (if (1 : ℚ) / 10 ≤ 3 / 100 then "우수"
         else if (1 : ℚ) / 20 ≤ 3 / 100 then "양호"
         else if (1 : ℚ) / 100 ≤ 3 / 100 then "경고" else "심각")
    ∧ labelGrowthRate [("우수", (1 : ℚ) / 10), ("양호", 1 / 20), ("경고", 1 / 100)] none
        = "데이터 없음"
    ∧ scoreGrowthRate [("우수", (1 : ℚ) / 10), ("양호", 1 / 20), ("경고", 1 / 100)] 30 none = 0
    ∧ ("데이터 없음" : String) ≠ "심각" :=
  claim_C8_label_thresholds (1 / 10) (1 / 20) (1 / 100) (3 / 100) 30
    (by norm_num) (by norm_num) (by norm_num) (by norm_num) (by norm_num)

end StartupAI
